import Mathlib

/-!
Verification of the PRISM risk evaluation engine and its rate-limited
execution scheduler, shallowly embedded from
`src/prism/tools/calculation_tools.py`, `src/prism/utils/gradio_helpers.py`
and `src/prism/constants.py`.

Numeric model: Python floats are modeled as exact rationals; the Python
`round(x, 2)` (round-half-to-even) is modeled by `roundHalfEven` on exact
rationals.  Calendar dates are modeled as integer day numbers, so the
Python expression `(maturity - datetime.now()).days` becomes the integer
difference `maturity_date - today`.  Python dictionaries for positions
become a record with `Option` fields; a `KeyError` on a missing key
becomes a `ValidationError` naming the field, and a raised exception
becomes the `Except.error` branch.
-/

namespace Prism

/-- Round-half-to-even of a rational to an integer, the rounding mode of
the builtin `round` of Python. -/
def roundHalfEven (q : ℚ) : ℤ :=
  if q - Rat.floor q < 1/2 then Rat.floor q
  else if 1/2 < q - Rat.floor q then Rat.floor q + 1
  else if Rat.floor q % 2 = 0 then Rat.floor q else Rat.floor q + 1

/-- Python `round(x, 2)`: round to two decimal places, half to even. -/
def round2 (q : ℚ) : ℚ := (roundHalfEven (q * 100) : ℚ) / 100

/-- Constant `MAX_RUNS` from `src/prism/constants.py`. -/
def MAX_RUNS : Nat := 5

/-- Sleep interval, in seconds, of the continuous monitoring loop
(`time.sleep(60)` in `monitor_loop`, `src/prism/utils/gradio_helpers.py`). -/
def MONITOR_SLEEP_SECONDS : Nat := 60

/-- Function `_calculate_years_to_maturity_internal` from
`src/prism/tools/calculation_tools.py`: `days_remaining` is the integer
`(maturity - today).days`; the result is `max(days_remaining / 365.25, 0)`. -/
def calculate_years_to_maturity_internal (days_remaining : ℤ) : ℚ :=
  max ((days_remaining : ℚ) / 365.25) 0

/-- A swap position dictionary.  Each field is optional because the Python
side is a plain `dict` that may lack any key. -/
structure Position where
  position_id : Option String
  fixed_rate : Option ℚ
  notional : Option ℚ
  pay_receive : Option String
  maturity_date : Option ℤ
deriving DecidableEq, Repr

/-- A missing required position field (Python raises `KeyError(field)`;
the spec calls this `ValidationError` and requires the message to name
the field). -/
structure ValidationError where
  missing_field : String
deriving DecidableEq, Repr

/-- The dictionary returned by `calculate_swap_pnl`. -/
structure PnLResult where
  position_id : String
  entry_rate : ℚ
  current_rate : ℚ
  rate_change_bps : ℚ
  dv01 : ℚ
  pnl : ℚ
  notional : ℚ
deriving DecidableEq, Repr

/-- Function `calculate_swap_pnl` from `src/prism/tools/calculation_tools.py`.
A `position[key]` access on a missing key raises `KeyError(key)`, modeled
as the `Except.error` branch; accesses happen in source order:
`fixed_rate`, `notional`, `pay_receive`, `maturity_date`, and finally
`position_id` when the result dictionary is built (the early
`position.get("position_id", "unknown")` is only logged and never
raises).  `today` is the day number read from `datetime.now()` inside the
maturity helper. -/
def calculate_swap_pnl (position : Position) (current_rate : ℚ) (today : ℤ) :
    Except ValidationError PnLResult :=
  match position.fixed_rate with
  | none => Except.error ⟨"fixed_rate"⟩
  | some entry_rate =>
  match position.notional with
  | none => Except.error ⟨"notional"⟩
  | some notional =>
  match position.pay_receive with
  | none => Except.error ⟨"pay_receive"⟩
  | some pay_receive =>
  let direction : ℚ := if pay_receive = "PAY_FIXED" then -1 else 1
  match position.maturity_date with
  | none => Except.error ⟨"maturity_date"⟩
  | some maturity =>
  let years_to_maturity := calculate_years_to_maturity_internal (maturity - today)
  let dv01 := notional * 0.0001 * years_to_maturity
  let rate_change_bps := (current_rate - entry_rate) * 10000
  let pnl := rate_change_bps * dv01 * direction
  match position.position_id with
  | none => Except.error ⟨"position_id"⟩
  | some position_id =>
  Except.ok {
    position_id := position_id
    entry_rate := entry_rate
    current_rate := current_rate
    rate_change_bps := round2 rate_change_bps
    dv01 := round2 dv01
    pnl := round2 pnl
    notional := notional
  }

/-- Signal kind of `check_trading_signal` ("CLOSE" / "HOLD"). -/
inductive SignalKind
  | CLOSE
  | HOLD
deriving DecidableEq, Repr

/-- The `reason` string of `check_trading_signal`, modeled structurally: each
constructor records the figures interpolated into the corresponding f-string
("Profit target hit: $pnl >= $threshold", "Stop loss hit: $pnl <= $threshold",
"P&L $pnl within acceptable range"). -/
inductive SignalReason
  | profitTargetHit (pnl : ℚ) (threshold_profit : ℚ)
  | stopLossHit (pnl : ℚ) (threshold_loss : ℚ)
  | withinRange (pnl : ℚ)
deriving DecidableEq, Repr

/-- The dictionary returned by `check_trading_signal`. -/
structure Signal where
  signal : SignalKind
  reason : SignalReason
  action : String
deriving DecidableEq, Repr

/-- Function `check_trading_signal` from `src/prism/tools/calculation_tools.py`:
profit check first, then stop loss, both with inclusive comparisons. -/
def check_trading_signal (pnl : ℚ) (threshold_profit : ℚ := 50000)
    (threshold_loss : ℚ := -25000) : Signal :=
  if pnl ≥ threshold_profit then
    { signal := SignalKind.CLOSE
      reason := SignalReason.profitTargetHit pnl threshold_profit
      action := "Close position to lock in profit" }
  else if pnl ≤ threshold_loss then
    { signal := SignalKind.CLOSE
      reason := SignalReason.stopLossHit pnl threshold_loss
      action := "Close position to limit loss" }
  else
    { signal := SignalKind.HOLD
      reason := SignalReason.withinRange pnl
      action := "Continue monitoring" }

/-- The `profit_pct` tier of `calculate_dynamic_thresholds`, selected by
notional in descending order. -/
def threshold_profit_pct (notional : ℚ) : ℚ :=
  if notional ≥ 20000000 then 0.003
  else if notional ≥ 10000000 then 0.005
  else 0.01

/-- The `loss_pct` tier of `calculate_dynamic_thresholds`. -/
def threshold_loss_pct (notional : ℚ) : ℚ :=
  if notional ≥ 20000000 then 0.0015
  else if notional ≥ 10000000 then 0.0025
  else 0.005

/-- Value `profit_target = notional * profit_pct * (1 + volatility * 10)` before
the final 2dp rounding. -/
def profit_target_raw (notional volatility : ℚ) : ℚ :=
  notional * threshold_profit_pct notional * (1 + volatility * 10)

/-- Value `stop_loss = -notional * loss_pct * (1 + volatility * 10)` before the
final 2dp rounding. -/
def stop_loss_raw (notional volatility : ℚ) : ℚ :=
  -notional * threshold_loss_pct notional * (1 + volatility * 10)

/-- The dictionary returned by `calculate_dynamic_thresholds`. -/
structure ThresholdResult where
  position_id : String
  profit_target : ℚ
  stop_loss : ℚ
deriving DecidableEq, Repr

/-- Function `calculate_dynamic_thresholds` from
`src/prism/tools/calculation_tools.py`: reads `position["notional"]`,
selects the tier, scales by the volatility multiplier, rounds to 2dp, and
reads `position["position_id"]` when building the result dictionary. -/
def calculate_dynamic_thresholds (position : Position)
    (volatility : ℚ := 0.02) : Except ValidationError ThresholdResult :=
  match position.notional with
  | none => Except.error ⟨"notional"⟩
  | some notional =>
  match position.position_id with
  | none => Except.error ⟨"position_id"⟩
  | some position_id =>
  Except.ok {
    position_id := position_id
    profit_target := round2 (profit_target_raw notional volatility)
    stop_loss := round2 (stop_loss_raw notional volatility)
  }

/-- A row of the `demo_executions` table (`INSERT INTO demo_executions
(ip_address, last_run) VALUES (%s, NOW())`).  `last_run` is in hours. -/
structure ExecutionRecord where
  ip_address : String
  last_run : ℚ
deriving DecidableEq, Repr

/-- The count query of `run_once_with_limit`: `SELECT COUNT(*) FROM
demo_executions WHERE ip_address = %s AND last_run > NOW() - INTERVAL
'24 hours'`, with `NOW()` passed explicitly as `now` (in hours). -/
def execution_count_24h (log : List ExecutionRecord) (ip : String)
    (now : ℚ) : Nat :=
  log.countP fun r => decide (r.ip_address = ip ∧ now - 24 < r.last_run)

/-- The external orchestration call failed
(`PrismCrew().crew().kickoff(...)` raised); the exception carries the
underlying cause and propagates out of `run_once_with_limit`, which has no
handler around `run_crew_cycle()`. -/
structure CycleExecutionError where
  cause : String
deriving DecidableEq, Repr

/-- The dictionary returned by `run_once_with_limit`: either the
limit-reached message carrying the current count, or the success output of
`run_crew_cycle` carrying the new usage count. -/
inductive RunOutcome
  | limitReached (count : Nat)
  | allowed (new_count : Nat) (output : String)
deriving DecidableEq, Repr

/-- Function `run_once_with_limit` from `src/prism/utils/gradio_helpers.py`.
`crew_result` is the outcome of the external `run_crew_cycle()` call
(opaque to the core); `log` is the `demo_executions` table, returned
updated.  The count is read first; at or above `MAX_RUNS` nothing is
inserted; otherwise a record is inserted *before* the crew call, so a
raised `CycleExecutionError` propagates with the record still inserted. -/
def run_once_with_limit (crew_result : Except CycleExecutionError String)
    (log : List ExecutionRecord) (ip : String) (now : ℚ) :
    Except CycleExecutionError RunOutcome × List ExecutionRecord :=
  let count := execution_count_24h log ip now
  if count ≥ MAX_RUNS then
    (Except.ok (RunOutcome.limitReached count), log)
  else
    let log' := log ++ [⟨ip, now⟩]
    match crew_result with
    | Except.error e => (Except.error e, log')
    | Except.ok output =>
        (Except.ok (RunOutcome.allowed (count + 1) output), log')

/-- The module-level scheduler state of `src/prism/utils/gradio_helpers.py`:
the `crew_running` flag plus the number of threads currently executing
`monitor_loop` (0 initially; each `threading.Thread(...).start()` adds one;
a thread leaves when its `while crew_running` check observes `False`). -/
structure SchedulerState where
  crew_running : Bool
  active_loops : Nat
deriving DecidableEq, Repr

/-- State `crew_running = False`, `crew_thread = None` at module load. -/
def initial_scheduler_state : SchedulerState := ⟨false, 0⟩

/-- Function `start_crew_monitoring`: if the flag is not set, set it, spawn one
`monitor_loop` thread and report success; otherwise change nothing and
report that monitoring is already running. -/
def start_crew_monitoring (s : SchedulerState) : SchedulerState × String :=
  if ¬ s.crew_running then
    ({ crew_running := true, active_loops := s.active_loops + 1 },
      "Started continuous monitoring (60s intervals)")
  else
    (s, "Monitoring already running")

/-- Function `stop_crew_monitoring`: clear the flag. -/
def stop_crew_monitoring (s : SchedulerState) : SchedulerState × String :=
  ({ s with crew_running := false }, "Stopped continuous monitoring")

/-- One observation of `while crew_running` at the top of a loop
iteration: if the flag is set the thread runs a cycle and sleeps
`MONITOR_SLEEP_SECONDS` (state unchanged); if it is clear the thread
exits. -/
def monitor_loop_check (s : SchedulerState) : SchedulerState :=
  if s.crew_running then s
  else { s with active_loops := s.active_loops - 1 }

/-- Interleaved events on the shared scheduler state: a `start` request, a
`stop` request, or one loop thread observing the flag. -/
inductive SchedulerEvent
  | start
  | stop
  | loopCheck
deriving DecidableEq, BEq, Repr

/-- Effect of one event on the scheduler state. -/
def scheduler_step (s : SchedulerState) : SchedulerEvent → SchedulerState
  | SchedulerEvent.start => (start_crew_monitoring s).1
  | SchedulerEvent.stop => (stop_crew_monitoring s).1
  | SchedulerEvent.loopCheck => monitor_loop_check s

/-- Run a sequence of interleaved events. -/
def scheduler_run (s : SchedulerState) (events : List SchedulerEvent) :
    SchedulerState :=
  events.foldl scheduler_step s

/-- A trace is start-safe when every `start` issued while the flag is
clear happens only after any previously launched loop has observed the
cleared flag and exited (no loop thread still active). -/
def scheduler_starts_safe : SchedulerState → List SchedulerEvent → Bool
  | _, [] => true
  | s, e :: es =>
      (!(decide (e = SchedulerEvent.start) && !s.crew_running)
        || decide (s.active_loops = 0))
      && scheduler_starts_safe (scheduler_step s e) es

/-- The clock read by `datetime.now()` inside the P&L calculation, made
explicit as state threaded through the call. -/
structure Clock where
  today : ℤ
deriving DecidableEq, Repr

/-- Function `calculate_swap_pnl` as a stateful call: it reads the clock and
returns the state unchanged (it writes nothing). -/
def calculate_swap_pnl_stateful (position : Position) (current_rate : ℚ)
    (c : Clock) : Except ValidationError PnLResult × Clock :=
  (calculate_swap_pnl position current_rate c.today, c)

/-- The Scenario A position: notional 10,000,000, fixed_rate 4.10,
RCV_FIXED, maturity 1825 days (5 years) in the future of day 0. -/
def scenarioA_position : Position :=
  ⟨some "POS001", some 4.10, some 10000000, some "RCV_FIXED", some 1825⟩

section RoundingLemmas

lemma rat_floor_eq_floor (q : ℚ) : Rat.floor q = ⌊q⌋ := by
  rw [Rat.floor_def', Rat.floor_def]

lemma roundHalfEven_ge_floor (q : ℚ) : ⌊q⌋ ≤ roundHalfEven q := by
  unfold roundHalfEven
  rw [rat_floor_eq_floor]
  split_ifs <;> omega

lemma roundHalfEven_le_floor_add_one (q : ℚ) : roundHalfEven q ≤ ⌊q⌋ + 1 := by
  unfold roundHalfEven
  rw [rat_floor_eq_floor]
  split_ifs <;> omega

lemma roundHalfEven_mono {p q : ℚ} (h : p ≤ q) :
    roundHalfEven p ≤ roundHalfEven q := by
  have hf : ⌊p⌋ ≤ ⌊q⌋ := Int.floor_le_floor h
  rcases eq_or_lt_of_le hf with heq | hlt
  · have hr : p - (⌊p⌋ : ℚ) ≤ q - (⌊p⌋ : ℚ) := by linarith
    unfold roundHalfEven
    rw [rat_floor_eq_floor, rat_floor_eq_floor, ← heq]
    split_ifs <;> first | omega | linarith
  · calc roundHalfEven p ≤ ⌊p⌋ + 1 := roundHalfEven_le_floor_add_one p
      _ ≤ ⌊q⌋ := by omega
      _ ≤ roundHalfEven q := roundHalfEven_ge_floor q

lemma round2_mono {p q : ℚ} (h : p ≤ q) : round2 p ≤ round2 q := by
  unfold round2
  have h1 : roundHalfEven (p * 100) ≤ roundHalfEven (q * 100) :=
    roundHalfEven_mono (by linarith)
  have h2 : (roundHalfEven (p * 100) : ℚ) ≤ (roundHalfEven (q * 100) : ℚ) := by
    exact_mod_cast h1
  linarith

end RoundingLemmas

lemma round2_eval_down (q : ℚ) (f : ℤ) (hf : ⌊q * 100⌋ = f)
    (h : q * 100 - f < 1/2) : round2 q = f / 100 := by
  unfold round2 roundHalfEven
  rw [rat_floor_eq_floor, hf, if_pos h]

lemma round2_eval_up (q : ℚ) (f : ℤ) (hf : ⌊q * 100⌋ = f)
    (h : 1/2 < q * 100 - f) : round2 q = (f + 1) / 100 := by
  unfold round2 roundHalfEven
  rw [rat_floor_eq_floor, hf, if_neg (by linarith), if_pos h]
  push_cast
  ring

lemma round2_zero : round2 0 = 0 := by
  rw [round2_eval_down 0 0 (by norm_num) (by norm_num)]
  norm_num

lemma scenarioA_eval_day0 :
    calculate_swap_pnl scenarioA_position 3.40 0 =
      Except.ok { position_id := "POS001"
                  entry_rate := 4.10
                  current_rate := 3.40
                  rate_change_bps := -7000
                  dv01 := 4996.58
                  pnl := -34976043.81
                  notional := 10000000 } := by
  have hs : ("RCV_FIXED" : String) ≠ "PAY_FIXED" := by decide
  have hy : calculate_years_to_maturity_internal ((1825 : ℤ) - 0) = 7300/1461 := by
    unfold calculate_years_to_maturity_internal
    rw [max_eq_left (by norm_num)]
    norm_num
  simp only [calculate_swap_pnl, scenarioA_position, hy, if_neg hs]
  refine congrArg Except.ok ?_
  simp only [PnLResult.mk.injEq]
  refine ⟨trivial, trivial, trivial, ?_, ?_, ?_, trivial⟩
  · rw [round2_eval_down _ (-700000) (by norm_num) (by norm_num)]
    norm_num
  · rw [round2_eval_up _ 499657 (by norm_num) (by norm_num)]
    norm_num
  · rw [round2_eval_down _ (-3497604381) (by norm_num) (by norm_num)]
    norm_num

lemma scenarioA_eval_day365 :
    calculate_swap_pnl scenarioA_position 3.40 365 =
      Except.ok { position_id := "POS001"
                  entry_rate := 4.10
                  current_rate := 3.40
                  rate_change_bps := -7000
                  dv01 := 3997.26
                  pnl := -27980835.04
                  notional := 10000000 } := by
  have hs : ("RCV_FIXED" : String) ≠ "PAY_FIXED" := by decide
  have hy : calculate_years_to_maturity_internal ((1825 : ℤ) - 365) = 5840/1461 := by
    unfold calculate_years_to_maturity_internal
    rw [max_eq_left (by norm_num)]
    norm_num
  simp only [calculate_swap_pnl, scenarioA_position, hy, if_neg hs]
  refine congrArg Except.ok ?_
  simp only [PnLResult.mk.injEq]
  refine ⟨trivial, trivial, trivial, ?_, ?_, ?_, trivial⟩
  · rw [round2_eval_down _ (-700000) (by norm_num) (by norm_num)]
    norm_num
  · rw [round2_eval_down _ 399726 (by norm_num) (by norm_num)]
    norm_num
  · rw [round2_eval_up _ (-2798083505) (by norm_num) (by norm_num)]
    norm_num

/-- C1: evaluation of `calculate_swap_pnl` at Scenario A (notional
10,000,000, fixed_rate 4.10, RCV_FIXED, maturity 1825 days out,
current_rate 3.40): the code returns `rate_change_bps = -7000.00`, not
-70.00, and a strictly negative pnl (-34,976,043.81), not a positive one
— the own test suite of the repository asserts `pnl > 0` at exactly these inputs. -/
theorem c1_scenarioA_code_evaluation :
    calculate_swap_pnl scenarioA_position 3.40 0 =
      Except.ok { position_id := "POS001"
                  entry_rate := 4.10
                  current_rate := 3.40
                  rate_change_bps := -7000
                  dv01 := 4996.58
                  pnl := -34976043.81
                  notional := 10000000 } ∧
    (-34976043.81 : ℚ) < 0 :=
  ⟨scenarioA_eval_day0, by norm_num⟩

/-- C4: `check_trading_signal` checks the profit bound first; at or above
`threshold_profit` it returns CLOSE citing the profit figure and
threshold; otherwise, at or below `threshold_loss` it returns CLOSE
citing the loss figure and threshold; strictly between the bounds it
returns HOLD.  Both bounds are inclusive. -/
theorem c4_check_trading_signal_spec :
    ∀ (pnl threshold_profit threshold_loss : ℚ),
      (threshold_profit ≤ pnl →
        check_trading_signal pnl threshold_profit threshold_loss =
          { signal := SignalKind.CLOSE
            reason := SignalReason.profitTargetHit pnl threshold_profit
            action := "Close position to lock in profit" }) ∧
      (pnl < threshold_profit → pnl ≤ threshold_loss →
        check_trading_signal pnl threshold_profit threshold_loss =
          { signal := SignalKind.CLOSE
            reason := SignalReason.stopLossHit pnl threshold_loss
            action := "Close position to limit loss" }) ∧
      (threshold_loss < pnl → pnl < threshold_profit →
        check_trading_signal pnl threshold_profit threshold_loss =
          { signal := SignalKind.HOLD
            reason := SignalReason.withinRange pnl
            action := "Continue monitoring" }) := by
  intro pnl tp tl
  refine ⟨fun h => ?_, fun h1 h2 => ?_, fun h1 h2 => ?_⟩ <;>
    unfold check_trading_signal <;> split_ifs <;> first | rfl | linarith

/-- C4 witness: at pnl exactly equal to the default profit threshold the
signal is CLOSE citing the profit figure. -/
theorem c4_check_trading_signal_witness :
    check_trading_signal 50000 50000 (-25000) =
      { signal := SignalKind.CLOSE
        reason := SignalReason.profitTargetHit 50000 50000
        action := "Close position to lock in profit" } :=
  (c4_check_trading_signal_spec 50000 50000 (-25000)).1 (by norm_num)

/-- C5: the year fraction is never negative, and for any position whose
maturity day is not after `today` the calculator returns `dv01 = 0` and
`pnl = 0`. -/
theorem c5_matured_position_zero :
    (∀ d : ℤ, 0 ≤ calculate_years_to_maturity_internal d) ∧
    ∀ (pid pr : String) (entry notional current_rate : ℚ) (m today : ℤ),
      m ≤ today →
      calculate_swap_pnl ⟨some pid, some entry, some notional, some pr, some m⟩
          current_rate today =
        Except.ok { position_id := pid
                    entry_rate := entry
                    current_rate := current_rate
                    rate_change_bps := round2 ((current_rate - entry) * 10000)
                    dv01 := 0
                    pnl := 0
                    notional := notional } := by
  constructor
  · intro d
    unfold calculate_years_to_maturity_internal
    exact le_max_right _ _
  · intro pid pr entry notional current_rate m today h
    have hy : calculate_years_to_maturity_internal (m - today) = 0 := by
      unfold calculate_years_to_maturity_internal
      have h0 : ((m - today : ℤ) : ℚ) ≤ 0 := by
        have hz : (m - today : ℤ) ≤ 0 := by omega
        exact_mod_cast hz
      exact max_eq_right (div_nonpos_of_nonpos_of_nonneg h0 (by norm_num))
    simp [calculate_swap_pnl, hy, round2_zero]

/-- C5 witness: a concrete matured position yields `dv01 = 0`, `pnl = 0`. -/
theorem c5_matured_position_witness :
    calculate_swap_pnl
        ⟨some "P", some 4.10, some 10000000, some "RCV_FIXED", some 0⟩
        3.50 365 =
      Except.ok { position_id := "P"
                  entry_rate := 4.10
                  current_rate := 3.50
                  rate_change_bps := round2 ((3.50 - 4.10) * 10000)
                  dv01 := 0
                  pnl := 0
                  notional := 10000000 } :=
  c5_matured_position_zero.2 "P" "RCV_FIXED" 4.10 10000000 3.50 0 365
    (by norm_num)

/-- C10: in every notional tier `profit_pct = 2 * loss_pct`, so the
unrounded `profit_target` equals exactly `-2` times the unrounded
`stop_loss`, and the rounded `profit_target` of the calculator is the rounding
of `-2` times the unrounded `stop_loss`. -/
theorem c10_profit_target_neg_two_stop_loss :
    ∀ (notional volatility : ℚ),
      threshold_profit_pct notional = 2 * threshold_loss_pct notional ∧
      profit_target_raw notional volatility =
        -2 * stop_loss_raw notional volatility ∧
      round2 (profit_target_raw notional volatility) =
        round2 (-2 * stop_loss_raw notional volatility) := by
  intro n v
  have hpct : threshold_profit_pct n = 2 * threshold_loss_pct n := by
    unfold threshold_profit_pct threshold_loss_pct
    split_ifs <;> norm_num
  have hraw : profit_target_raw n v = -2 * stop_loss_raw n v := by
    unfold profit_target_raw stop_loss_raw
    rw [hpct]; ring
  exact ⟨hpct, hraw, by rw [hraw]⟩

/-- C6: for every position dictionary missing at least one required
field, `calculate_swap_pnl` fails with a `ValidationError` naming the
first missing field in the access order of the code (`fixed_rate`,
`notional`, `pay_receive`, `maturity_date`, `position_id`), and no
result is returned. -/
theorem c6_missing_field_validation :
    ∀ (p : Position) (current_rate : ℚ) (today : ℤ),
      (p.fixed_rate = none ∨ p.notional = none ∨ p.pay_receive = none ∨
        p.maturity_date = none ∨ p.position_id = none) →
      (calculate_swap_pnl p current_rate today =
        Except.error ⟨if p.fixed_rate = none then "fixed_rate"
          else if p.notional = none then "notional"
          else if p.pay_receive = none then "pay_receive"
          else if p.maturity_date = none then "maturity_date"
          else "position_id"⟩) ∧
      ∀ res, calculate_swap_pnl p current_rate today ≠ Except.ok res := by
  intro p current_rate today h
  obtain ⟨pid, fr, no, pr, md⟩ := p
  have heq : calculate_swap_pnl ⟨pid, fr, no, pr, md⟩ current_rate today =
      Except.error ⟨if fr = none then "fixed_rate"
        else if no = none then "notional"
        else if pr = none then "pay_receive"
        else if md = none then "maturity_date"
        else "position_id"⟩ := by
    rcases fr with _ | fr
    · simp [calculate_swap_pnl]
    · rcases no with _ | no
      · simp [calculate_swap_pnl]
      · rcases pr with _ | pr
        · simp [calculate_swap_pnl]
        · rcases md with _ | md
          · simp [calculate_swap_pnl]
          · rcases pid with _ | pid
            · simp [calculate_swap_pnl]
            · simp at h
  refine ⟨heq, fun res hres => ?_⟩
  rw [heq] at hres
  exact Except.noConfusion hres

/-- C6 witness: a position missing `notional` fails with a
`ValidationError` naming `notional`. -/
theorem c6_missing_field_validation_witness :
    calculate_swap_pnl
        ⟨some "POS001", some 4.10, none, some "RCV_FIXED", some 1825⟩ 3.40 0 =
      Except.error ⟨"notional"⟩ := by
  have h := (c6_missing_field_validation
    ⟨some "POS001", some 4.10, none, some "RCV_FIXED", some 1825⟩ 3.40 0
    (Or.inr (Or.inl rfl))).1
  simpa using h

/-- C2: the rate limiter decision.  At or above `MAX_RUNS` records in the
trailing 24-hour window the call returns `limitReached` with the current
count and appends nothing, whatever the crew call would have done;
below the quota it appends exactly one record for the caller at the
current time and returns `allowed` with `prior_count + 1`; records of a
different address never change the window count; and Scenario E: six
calls from "1.2.3.4" within 24 hours yield `allowed 1 .. allowed 5` then
`limitReached 5`. -/
theorem c2_rate_limiter_contract :
    (∀ (crew_result : Except CycleExecutionError String)
        (log : List ExecutionRecord) (ip : String) (now : ℚ),
        MAX_RUNS ≤ execution_count_24h log ip now →
        run_once_with_limit crew_result log ip now =
          (Except.ok (RunOutcome.limitReached (execution_count_24h log ip now)),
            log)) ∧
    (∀ (output : String) (log : List ExecutionRecord) (ip : String) (now : ℚ),
        execution_count_24h log ip now < MAX_RUNS →
        run_once_with_limit (Except.ok output) log ip now =
          (Except.ok (RunOutcome.allowed (execution_count_24h log ip now + 1)
              output),
            log ++ [⟨ip, now⟩])) ∧
    (∀ (log : List ExecutionRecord) (ip other : String) (t now : ℚ),
        other ≠ ip →
        execution_count_24h (log ++ [⟨other, t⟩]) ip now =
          execution_count_24h log ip now) ∧
    (run_once_with_limit (Except.ok "out") [] "1.2.3.4" 0 =
      (Except.ok (RunOutcome.allowed 1 "out"),
        [⟨"1.2.3.4", 0⟩]) ∧
    run_once_with_limit (Except.ok "out") [⟨"1.2.3.4", 0⟩] "1.2.3.4" 1 =
      (Except.ok (RunOutcome.allowed 2 "out"),
        [⟨"1.2.3.4", 0⟩, ⟨"1.2.3.4", 1⟩]) ∧
    run_once_with_limit (Except.ok "out")
        [⟨"1.2.3.4", 0⟩, ⟨"1.2.3.4", 1⟩] "1.2.3.4" 2 =
      (Except.ok (RunOutcome.allowed 3 "out"),
        [⟨"1.2.3.4", 0⟩, ⟨"1.2.3.4", 1⟩, ⟨"1.2.3.4", 2⟩]) ∧
    run_once_with_limit (Except.ok "out")
        [⟨"1.2.3.4", 0⟩, ⟨"1.2.3.4", 1⟩, ⟨"1.2.3.4", 2⟩] "1.2.3.4" 3 =
      (Except.ok (RunOutcome.allowed 4 "out"),
        [⟨"1.2.3.4", 0⟩, ⟨"1.2.3.4", 1⟩, ⟨"1.2.3.4", 2⟩, ⟨"1.2.3.4", 3⟩]) ∧
    run_once_with_limit (Except.ok "out")
        [⟨"1.2.3.4", 0⟩, ⟨"1.2.3.4", 1⟩, ⟨"1.2.3.4", 2⟩, ⟨"1.2.3.4", 3⟩]
        "1.2.3.4" 4 =
      (Except.ok (RunOutcome.allowed 5 "out"),
        [⟨"1.2.3.4", 0⟩, ⟨"1.2.3.4", 1⟩, ⟨"1.2.3.4", 2⟩, ⟨"1.2.3.4", 3⟩,
          ⟨"1.2.3.4", 4⟩]) ∧
    run_once_with_limit (Except.ok "out")
        [⟨"1.2.3.4", 0⟩, ⟨"1.2.3.4", 1⟩, ⟨"1.2.3.4", 2⟩, ⟨"1.2.3.4", 3⟩,
          ⟨"1.2.3.4", 4⟩] "1.2.3.4" 5 =
      (Except.ok (RunOutcome.limitReached 5),
        [⟨"1.2.3.4", 0⟩, ⟨"1.2.3.4", 1⟩, ⟨"1.2.3.4", 2⟩, ⟨"1.2.3.4", 3⟩,
          ⟨"1.2.3.4", 4⟩])) := by
  refine ⟨?_, ?_, ?_, ?_⟩
  · intro crew_result log ip now h
    simp only [run_once_with_limit, ge_iff_le, if_pos h]
  · intro output log ip now h
    simp only [run_once_with_limit, ge_iff_le]
    rw [if_neg (by omega)]
  · intro log ip other t now h
    simp [execution_count_24h, List.countP_append, List.countP_cons,
      decide_eq_true_eq, h]
  · refine ⟨?_, ?_, ?_, ?_, ?_, ?_⟩ <;>
      norm_num [run_once_with_limit, execution_count_24h, List.countP_cons,
        decide_eq_true_eq, MAX_RUNS]

/-- C2 witness: the first call from a fresh address is allowed with
count 1. -/
theorem c2_rate_limiter_contract_witness :
    run_once_with_limit (Except.ok "cycle output") [] "1.2.3.4" 0 =
      (Except.ok (RunOutcome.allowed (execution_count_24h [] "1.2.3.4" 0 + 1)
          "cycle output"),
        [] ++ [⟨"1.2.3.4", 0⟩]) :=
  c2_rate_limiter_contract.2.1 "cycle output" [] "1.2.3.4" 0
    (by norm_num [execution_count_24h, MAX_RUNS])

/-- C3: when the external orchestration call raises, an allowed
`run_once_with_limit` invocation propagates the error to the caller, and
the record appended before the call stays: the 24-hour count of the caller
after the failed run is `prior_count + 1`. -/
theorem c3_failed_cycle_keeps_quota_slot :
    ∀ (e : CycleExecutionError) (log : List ExecutionRecord) (ip : String)
      (now : ℚ),
      execution_count_24h log ip now < MAX_RUNS →
      run_once_with_limit (Except.error e) log ip now =
        (Except.error e, log ++ [⟨ip, now⟩]) ∧
      execution_count_24h (log ++ [⟨ip, now⟩]) ip now =
        execution_count_24h log ip now + 1 := by
  intro e log ip now h
  constructor
  · simp only [run_once_with_limit, ge_iff_le]
    rw [if_neg (by omega)]
  · simp [execution_count_24h, List.countP_append, List.countP_cons,
      decide_eq_true_eq, sub_lt_self_iff]

/-- C3 witness: a failed first call from a fresh address propagates the
error and leaves the count at 1. -/
theorem c3_failed_cycle_keeps_quota_slot_witness :
    run_once_with_limit (Except.error ⟨"kickoff raised"⟩) [] "1.2.3.4" 0 =
      (Except.error ⟨"kickoff raised"⟩, [] ++ [⟨"1.2.3.4", 0⟩]) ∧
    execution_count_24h ([] ++ [⟨"1.2.3.4", 0⟩]) "1.2.3.4" 0 =
      execution_count_24h [] "1.2.3.4" 0 + 1 :=
  c3_failed_cycle_keeps_quota_slot ⟨"kickoff raised"⟩ [] "1.2.3.4" 0
    (by norm_num [execution_count_24h, MAX_RUNS])

/-- C7 counterexample: at notional 1,000,000 and volatilities
0 < 10⁻⁹ the unrounded profit target strictly increases, but the
2dp-rounded outputs of the calculator are identical, so the rounded
magnitudes are not strictly increasing in volatility. -/
theorem c7_strict_rounded_monotonicity_counterexample :
    (0 : ℚ) < 1/1000000000 ∧
    profit_target_raw 1000000 0 < profit_target_raw 1000000 (1/1000000000) ∧
    calculate_dynamic_thresholds
        ⟨some "POS001", none, some 1000000, none, none⟩ 0 =
      calculate_dynamic_thresholds
        ⟨some "POS001", none, some 1000000, none, none⟩ (1/1000000000) ∧
    ¬ (|round2 (profit_target_raw 1000000 0)| <
        |round2 (profit_target_raw 1000000 (1/1000000000))|) := by
  have hpt : threshold_profit_pct 1000000 = 0.01 := by
    unfold threshold_profit_pct
    norm_num
  have hlt : threshold_loss_pct 1000000 = 0.005 := by
    unfold threshold_loss_pct
    norm_num
  have hround_pt : round2 (profit_target_raw 1000000 0) =
      round2 (profit_target_raw 1000000 (1/1000000000)) := by
    unfold profit_target_raw
    rw [hpt]
    rw [round2_eval_down _ 1000000 (by norm_num) (by norm_num),
      round2_eval_down _ 1000000 (by norm_num) (by norm_num)]
  refine ⟨by norm_num, ?_, ?_, ?_⟩
  · unfold profit_target_raw
    rw [hpt]
    norm_num
  · simp only [calculate_dynamic_thresholds]
    refine congrArg Except.ok ?_
    simp only [ThresholdResult.mk.injEq]
    refine ⟨trivial, hround_pt, ?_⟩
    unfold stop_loss_raw
    rw [hlt]
    rw [round2_eval_down _ (-500000) (by norm_num) (by norm_num),
      round2_eval_up _ (-500001) (by norm_num) (by norm_num)]
    norm_num
  · rw [hround_pt]
    exact lt_irrefl _

/-- C7 amended: for fixed positive notional and volatilities
`0 ≤ v1 < v2`, the unrounded `profit_target` is positive and the
unrounded `stop_loss` negative, their magnitudes strictly increase in
volatility, and the 2dp-rounded outputs are monotone (non-decreasing in
magnitude). -/
theorem c7_threshold_volatility_monotonicity :
    ∀ (notional v1 v2 : ℚ), 0 < notional → 0 ≤ v1 → v1 < v2 →
      |profit_target_raw notional v1| < |profit_target_raw notional v2| ∧
      |stop_loss_raw notional v1| < |stop_loss_raw notional v2| ∧
      0 < profit_target_raw notional v1 ∧
      stop_loss_raw notional v1 < 0 ∧
      round2 (profit_target_raw notional v1) ≤
        round2 (profit_target_raw notional v2) ∧
      round2 (stop_loss_raw notional v2) ≤
        round2 (stop_loss_raw notional v1) := by
  intro n v1 v2 hn h1 h12
  have hp : 0 < threshold_profit_pct n := by
    unfold threshold_profit_pct
    split_ifs <;> norm_num
  have hl : 0 < threshold_loss_pct n := by
    unfold threshold_loss_pct
    split_ifs <;> norm_num
  have hm1 : (0 : ℚ) < 1 + v1 * 10 := by linarith
  have hm2 : (0 : ℚ) < 1 + v2 * 10 := by linarith
  have hmm : 1 + v1 * 10 < 1 + v2 * 10 := by linarith
  have hpt1 : 0 < profit_target_raw n v1 := by
    unfold profit_target_raw
    exact mul_pos (mul_pos hn hp) hm1
  have hpt2 : 0 < profit_target_raw n v2 := by
    unfold profit_target_raw
    exact mul_pos (mul_pos hn hp) hm2
  have hneg : -n * threshold_loss_pct n < 0 :=
    mul_neg_of_neg_of_pos (by linarith) hl
  have hsl1 : stop_loss_raw n v1 < 0 := by
    unfold stop_loss_raw
    exact mul_neg_of_neg_of_pos hneg hm1
  have hsl2 : stop_loss_raw n v2 < 0 := by
    unfold stop_loss_raw
    exact mul_neg_of_neg_of_pos hneg hm2
  have hmono_pt : profit_target_raw n v1 < profit_target_raw n v2 := by
    unfold profit_target_raw
    exact mul_lt_mul_of_pos_left hmm (mul_pos hn hp)
  have hmono_sl : stop_loss_raw n v2 < stop_loss_raw n v1 := by
    unfold stop_loss_raw
    exact mul_lt_mul_of_neg_left hmm hneg
  refine ⟨?_, ?_, hpt1, hsl1, round2_mono (le_of_lt hmono_pt),
    round2_mono (le_of_lt hmono_sl)⟩
  · rw [abs_of_pos hpt1, abs_of_pos hpt2]
    exact hmono_pt
  · rw [abs_of_neg hsl1, abs_of_neg hsl2]
    linarith

/-- C7 witness: raising volatility from 0 to 1 strictly raises the
profit-target magnitude at notional 1,000,000. -/
theorem c7_threshold_volatility_monotonicity_witness :
    |profit_target_raw 1000000 0| < |profit_target_raw 1000000 1| :=
  (c7_threshold_volatility_monotonicity 1000000 0 1 (by norm_num) le_rfl
    (by norm_num)).1

/-- C8 counterexample: from the stopped initial state, the event
sequence start, stop, start leaves two `monitor_loop` threads active —
the second `start` observes the cleared flag before the first loop has
exited, so the guard in the code does not keep the at-most-one-loop
invariant under this interleaving. -/
theorem c8_single_loop_invariant_counterexample :
    (scheduler_run initial_scheduler_state
        [SchedulerEvent.start, SchedulerEvent.stop,
          SchedulerEvent.start]).active_loops = 2 := rfl

lemma scheduler_loops_le_one_of_starts_safe :
    ∀ (events : List SchedulerEvent) (s : SchedulerState),
      s.active_loops ≤ 1 → scheduler_starts_safe s events = true →
      (scheduler_run s events).active_loops ≤ 1 := by
  intro events
  induction events with
  | nil =>
    intro s h _
    simpa [scheduler_run] using h
  | cons e es ih =>
    intro s h hsafe
    simp only [scheduler_starts_safe, Bool.and_eq_true] at hsafe
    obtain ⟨hstart, hrest⟩ := hsafe
    have hstep : (scheduler_step s e).active_loops ≤ 1 := by
      cases e with
      | start =>
        simp only [scheduler_step, start_crew_monitoring]
        by_cases hr : s.crew_running
        · rw [if_neg (by simp [hr])]
          exact h
        · rw [if_pos (by simp [hr])]
          have h0 : s.active_loops = 0 := by
            simp only [Bool.not_eq_true] at hr
            simpa [hr, beq_self_eq_true] using hstart
          simp [h0]
      | stop =>
        simpa [scheduler_step, stop_crew_monitoring] using h
      | loopCheck =>
        simp only [scheduler_step, monitor_loop_check]
        split_ifs
        · exact h
        · simp only []
          omega
    exact ih (scheduler_step s e) hstep hrest

/-- C8 amended: `start_continuous` while RUNNING is a no-op reporting
that monitoring is already running; while STOPPED it sets RUNNING and
launches exactly one loop; `stop_continuous` clears the flag and stops
no thread itself (each loop exits at its next flag check).  In every
trace where a `start` from the stopped state only happens once no loop
thread remains active, at most one loop is ever active.  Without that
proviso the invariant fails (see the counterexample): stop immediately
followed by start leaves two loops running, because the flag check and
loop exit are not synchronized. -/
theorem c8_scheduler_single_flight :
    (∀ s : SchedulerState, s.crew_running = true →
        start_crew_monitoring s = (s, "Monitoring already running")) ∧
    (∀ s : SchedulerState, s.crew_running = false →
        start_crew_monitoring s =
          ({ crew_running := true, active_loops := s.active_loops + 1 },
            "Started continuous monitoring (60s intervals)")) ∧
    (∀ s : SchedulerState,
        stop_crew_monitoring s =
          ({ crew_running := false, active_loops := s.active_loops },
            "Stopped continuous monitoring")) ∧
    (∀ events : List SchedulerEvent,
        scheduler_starts_safe initial_scheduler_state events = true →
        (scheduler_run initial_scheduler_state events).active_loops ≤ 1) := by
  refine ⟨?_, ?_, ?_, ?_⟩
  · intro s h
    unfold start_crew_monitoring
    rw [if_neg (by simp [h])]
  · intro s h
    unfold start_crew_monitoring
    rw [if_pos (by simp [h])]
  · intro s
    rfl
  · intro events h
    exact scheduler_loops_le_one_of_starts_safe events initial_scheduler_state
      (by simp [initial_scheduler_state]) h

/-- C8 witness: a trace whose second start happens only after the first
loop observed the cleared flag and exited keeps at most one loop. -/
theorem c8_scheduler_single_flight_witness :
    (scheduler_run initial_scheduler_state
        [SchedulerEvent.start, SchedulerEvent.stop, SchedulerEvent.loopCheck,
          SchedulerEvent.start]).active_loops ≤ 1 :=
  c8_scheduler_single_flight.2.2.2
    [SchedulerEvent.start, SchedulerEvent.stop, SchedulerEvent.loopCheck,
      SchedulerEvent.start] (by rfl)

/-- C9 counterexample: two calls of the P&L calculation with identical
position and current_rate arguments but different clock states return
different outputs, so the function is not independent of hidden state:
it reads `datetime.now()`. -/
theorem c9_hidden_clock_counterexample :
    (calculate_swap_pnl_stateful scenarioA_position 3.40 ⟨0⟩).1 ≠
      (calculate_swap_pnl_stateful scenarioA_position 3.40 ⟨365⟩).1 := by
  intro hcontra
  simp only [calculate_swap_pnl_stateful] at hcontra
  rw [scenarioA_eval_day0, scenarioA_eval_day365] at hcontra
  simp only [Except.ok.injEq, PnLResult.mk.injEq] at hcontra
  norm_num at hcontra

/-- C9 amended: the calculation writes no state, and its output is
determined by the position, the current rate and the clock date it
reads: two calls with identical arguments and equal clock dates return
identical outputs. -/
theorem c9_determinism_given_clock :
    ∀ (position : Position) (current_rate : ℚ) (c c' : Clock),
      (calculate_swap_pnl_stateful position current_rate c).2 = c ∧
      (c.today = c'.today →
        (calculate_swap_pnl_stateful position current_rate c).1 =
          (calculate_swap_pnl_stateful position current_rate c').1) :=
  fun _ _ c c' =>
    ⟨rfl, fun h => by simp only [calculate_swap_pnl_stateful, h]⟩

/-- C9 witness: at equal clock dates the two calls agree. -/
theorem c9_determinism_given_clock_witness :
    (calculate_swap_pnl_stateful scenarioA_position 3.40 ⟨0⟩).1 =
      (calculate_swap_pnl_stateful scenarioA_position 3.40 ⟨0⟩).1 :=
  (c9_determinism_given_clock scenarioA_position 3.40 ⟨0⟩ ⟨0⟩).2 rfl

end Prism
